import Mathlib

/-!
# zlg: a zerolog level writer for Cloud Logging (writer.go)

A shallow embedding of `writer.go`.  The package is an adapter over two
imported libraries (zerolog and cloud.google.com/go/logging).  The embedding
keeps the adapter's own control flow and state, and treats the library as an
environment:

* every call the adapter makes into the library is appended to `World.calls`,
  oldest first, so that the order and the number of calls can be stated;
* whatever a library call returns is chosen by a `Backend`, which may look at
  the whole history of calls: the theorems quantify over every `Backend`;
* the package variable `clients` is the field `World.clients`;
* a `*loggingWriter` is passed explicitly; a method that assigns to a field
  returns the updated writer.

A call that may not return has an `Outcome`: it returns a value or it panics.
The one panic modelled is the nil receiver of `client.Logger` in
`NewWriterWithClient`: the method reads the fields of its receiver, so the call
on a nil `*logging.Client` is a nil pointer dereference.  `logging.NewClient`
returns either an error or a client that is not nil, so `NewWriter` never
reaches that panic.  Every other library call is taken to return.
-/

namespace Zlg

/-! ## Imported types and constants -/

/-- Representation of `zerolog.Level`, declared `int8` by zerolog.  No bound is
imposed: every statement below holds for every integer. -/
abbrev Level := Int

namespace zerolog

/-- Constant `zerolog.DebugLevel`. -/
abbrev DebugLevel : Level := 0
/-- Constant `zerolog.InfoLevel`. -/
abbrev InfoLevel : Level := 1
/-- Constant `zerolog.WarnLevel`. -/
abbrev WarnLevel : Level := 2
/-- Constant `zerolog.ErrorLevel`. -/
abbrev ErrorLevel : Level := 3
/-- Constant `zerolog.FatalLevel`. -/
abbrev FatalLevel : Level := 4
/-- Constant `zerolog.PanicLevel`. -/
abbrev PanicLevel : Level := 5
/-- Constant `zerolog.NoLevel`. -/
abbrev NoLevel : Level := 6
/-- Constant `zerolog.Disabled`. -/
abbrev Disabled : Level := 7
/-- Constant `zerolog.TraceLevel`. -/
abbrev TraceLevel : Level := -1

end zerolog

namespace logging

/-- Representation of `logging.Severity`, declared `int` by the logging package. -/
abbrev Severity := Int

/-- Constant `logging.Default`, the zero value of `Severity`. -/
abbrev Default : Severity := 0
/-- Constant `logging.Debug`. -/
abbrev Debug : Severity := 100
/-- Constant `logging.Info`. -/
abbrev Info : Severity := 200
/-- Constant `logging.Notice`. -/
abbrev Notice : Severity := 300
/-- Constant `logging.Warning`. -/
abbrev Warning : Severity := 400
/-- Constant `logging.Error`. -/
abbrev Error : Severity := 500
/-- Constant `logging.Critical`. -/
abbrev Critical : Severity := 600
/-- Constant `logging.Alert`. -/
abbrev Alert : Severity := 700
/-- Constant `logging.Emergency`. -/
abbrev Emergency : Severity := 800

end logging

/-- A Go `[]byte`. -/
abbrev Bytes := List (Fin 256)

/-- A Go `error` value that is not nil; `Option Err` is the Go type `error`,
with `none` for nil. -/
abbrev Err := String

/-- A `context.Context`, which the adapter only passes on. -/
abbrev Context := Nat

/-- A `logging.LoggerOption`, which the adapter only passes on. -/
abbrev LoggerOption := String

/-- A `*logging.Client`: `none` is the nil pointer, `some a` the client at `a`. -/
abbrev ClientPtr := Option Nat

/-- A `*logging.Logger`: `none` is the nil pointer, `some a` the logger at `a`. -/
abbrev LoggerPtr := Option Nat

/-- The fields of `logging.Entry` that `WriteLevel` sets; every other field of
the entry keeps its zero value.  `Payload` is `json.RawMessage(payload)`, a
conversion of the same bytes. -/
structure Entry where
  Severity : logging.Severity
  Payload : Bytes
deriving DecidableEq, Repr

/-- A Go `map[zerolog.Level]logging.Severity` as an association list read by
first match; the nil map is the empty list. -/
abbrev LevelMapping := List (Level × logging.Severity)

/-- The index expression `m[k]` on a Go map: the value stored under `k`, and
the zero value of the element type when `k` is not a key. -/
def mapIndex (m : LevelMapping) (k : Level) : logging.Severity :=
  (m.lookup k).getD 0

/-! ## The environment -/

/-- A call from the adapter into the logging library. -/
inductive Call where
  | NewClient (ctx : Context) (parent : String)
  | Ping (c : ClientPtr) (ctx : Context)
  | Logger (c : ClientPtr) (logID : String) (opts : List LoggerOption)
  | Log (lg : LoggerPtr) (e : Entry)
  | Flush (lg : LoggerPtr)
  | Close (c : ClientPtr)
deriving DecidableEq, Repr

/-- How a call ends: it returns a value, or it panics and returns nothing. -/
inductive Outcome (α : Type) where
  | returns (a : α)
  | panics
deriving DecidableEq, Repr

/-- What the library returns to each call, as a function of the call's
arguments and of the calls made before it.  `NewClient` stands for the pair
`(*Client, error)` of `logging.NewClient`: an error, with which the caller
drops the client, or the address of a client, which is then not nil. -/
structure Backend where
  NewClient : Context → String → List Call → Except Err Nat
  Ping : ClientPtr → Context → List Call → Option Err
  Logger : ClientPtr → String → List LoggerOption → List Call → LoggerPtr
  Flush : LoggerPtr → List Call → Option Err
  Close : ClientPtr → List Call → Option Err

/-- The state outside a writer: the package variable `clients` and the calls
made into the library so far, oldest first. -/
structure World where
  clients : List ClientPtr
  calls : List Call
deriving DecidableEq, Repr

/-- Record one more library call. -/
def World.call (w : World) (c : Call) : World :=
  { w with calls := w.calls ++ [c] }

/-! ## writer.go -/

/-- The package variable `DefaultLevelMapping`, with the entries of its
composite literal in source order. -/
def DefaultLevelMapping : LevelMapping :=
  [ (zerolog.DebugLevel, logging.Debug),
    (zerolog.InfoLevel, logging.Info),
    (zerolog.WarnLevel, logging.Warning),
    (zerolog.ErrorLevel, logging.Error),
    (zerolog.PanicLevel, logging.Critical),
    (zerolog.FatalLevel, logging.Alert),
    (zerolog.NoLevel, logging.Default),
    (zerolog.TraceLevel, logging.Default) ]

/-- The initial value of the package variable `clients`:
`make([]*logging.Client, 0, 1)`, a slice of length zero. -/
def clients : List ClientPtr := []

/-- The struct `loggingWriter`. -/
structure loggingWriter where
  client : ClientPtr
  logger : LoggerPtr
  levelMapping : LevelMapping
deriving DecidableEq, Repr

/-- The function `NewWriterWithClient`: build the writer from the client, the
logger the client hands out for `logID`, and `DefaultLevelMapping`; return its
address and a nil error.  There is no nil test on `client`: the evaluation of
`client.Logger(logID, opts...)` on a nil client panics, before anything is
built or returned. -/
def NewWriterWithClient (B : Backend) (client : ClientPtr) (logID : String)
    (opts : List LoggerOption) (w : World) :
    Outcome ((Option loggingWriter × Option Err) × World) :=
  match client with
  | none => Outcome.panics
  | some _ =>
    let lg := B.Logger client logID opts w.calls
    let w1 := w.call (Call.Logger client logID opts)
    let lw : loggingWriter :=
      { client := client, logger := lg, levelMapping := DefaultLevelMapping }
    Outcome.returns ((some lw, none), w1)

/-- The function `NewWriter`: create a client, ping it, append it to `clients`
and hand over to `NewWriterWithClient`; return nil and the error as soon as
one of the first two steps reports one. -/
def NewWriter (B : Backend) (ctx : Context) (parent logID : String)
    (opts : List LoggerOption) (w : World) :
    Outcome ((Option loggingWriter × Option Err) × World) :=
  let w1 := w.call (Call.NewClient ctx parent)
  match B.NewClient ctx parent w.calls with
  | Except.error err => Outcome.returns ((none, some err), w1)
  | Except.ok a =>
    let client : ClientPtr := some a
    let perr := B.Ping client ctx w1.calls
    let w2 := w1.call (Call.Ping client ctx)
    match perr with
    | some err => Outcome.returns ((none, some err), w2)
    | none =>
      let w3 : World := { w2 with clients := w2.clients ++ [client] }
      NewWriterWithClient B client logID opts w3

/-- The body of the `for _, c := range clients` loop of `Close`, run over the
elements still to visit: a client that is not nil is closed and the result of
the close is dropped. -/
def closeLoop (B : Backend) : List ClientPtr → World → World
  | [], w => w
  | c :: cs, w =>
    if c ≠ none then
      let _ := B.Close c w.calls
      closeLoop B cs (w.call (Call.Close c))
    else
      closeLoop B cs w

/-- The function `Close`: range over the package variable `clients`. -/
def Close (B : Backend) (w : World) : World :=
  closeLoop B w.clients w

/-- The method `WriteLevel`: log one entry with the mapped severity and the
payload; at `zerolog.FatalLevel` flush the logger and return `0` and the error
when the flush reports one; otherwise return the length of the payload. -/
def WriteLevel (B : Backend) (lw : loggingWriter) (level : Level) (payload : Bytes)
    (w : World) : (Int × Option Err) × World :=
  let w1 := w.call
    (Call.Log lw.logger
      { Severity := mapIndex lw.levelMapping level, Payload := payload })
  if level = zerolog.FatalLevel then
    let err := B.Flush lw.logger w1.calls
    let w2 := w1.call (Call.Flush lw.logger)
    match err with
    | some e => ((0, some e), w2)
    | none => (((payload.length : Int), none), w2)
  else
    (((payload.length : Int), none), w1)

/-- The method `Write`. -/
def Write (B : Backend) (lw : loggingWriter) (p : Bytes) (w : World) :
    (Int × Option Err) × World :=
  WriteLevel B lw zerolog.NoLevel p w

/-- The method `SetLevelMapping`: assign the field `levelMapping` of the
writer; nothing outside the writer is touched. -/
def SetLevelMapping (lw : loggingWriter) (lm : LevelMapping) (w : World) :
    loggingWriter × World :=
  ({ lw with levelMapping := lm }, w)

/-! ## Concrete environments and inputs -/

/-- A library in which every call succeeds; a new client or logger gets the
number of calls made so far as its address. -/
def okBackend : Backend :=
  { NewClient := fun _ _ cs => Except.ok cs.length
    Ping := fun _ _ _ => none
    Logger := fun _ _ _ cs => some cs.length
    Flush := fun _ _ => none
    Close := fun _ _ => none }

/-- A library whose `Flush` always reports an error. -/
def flushFailBackend : Backend :=
  { okBackend with Flush := fun _ _ => some "flush: deadline exceeded" }

/-- A library whose `NewClient` always reports an error. -/
def newClientFailBackend : Backend :=
  { okBackend with NewClient := fun _ _ _ => Except.error "no credentials" }

/-- A library whose `Ping` always reports an error. -/
def pingFailBackend : Backend :=
  { okBackend with Ping := fun _ _ _ => some "unreachable" }

/-- A library whose `Close` always reports an error. -/
def closeFailBackend : Backend :=
  { okBackend with Close := fun _ _ => some "already closed" }

/-- The state at process start: no client registered, no call made. -/
def initWorld : World :=
  { clients := clients, calls := [] }

/-- A state with three registry slots, the middle one nil. -/
def sampleWorld : World :=
  { clients := [some 1, none, some 2], calls := [] }

/-- A writer as `NewWriterWithClient` builds it. -/
def sampleWriter : loggingWriter :=
  { client := some 1, logger := some 7, levelMapping := DefaultLevelMapping }

/-- A writer whose mapping has the single key `zerolog.ErrorLevel`. -/
def errorOnlyWriter : loggingWriter :=
  { client := some 1, logger := some 7,
    levelMapping := [(zerolog.ErrorLevel, logging.Error)] }

/-- The eleven bytes of the JSON text with the one member "msg" of value "x". -/
def msgX : Bytes :=
  [123, 34, 109, 115, 103, 34, 58, 34, 120, 34, 125]

/-! ## Lemmas on `WriteLevel` -/

/-- The calls `WriteLevel` adds: the `Log`, then the `Flush` at the fatal level. -/
theorem WriteLevel_calls (B : Backend) (lw : loggingWriter) (level : Level)
    (p : Bytes) (w : World) :
    (WriteLevel B lw level p w).2.calls =
      w.calls ++
        Call.Log lw.logger { Severity := mapIndex lw.levelMapping level, Payload := p } ::
          (if level = zerolog.FatalLevel then [Call.Flush lw.logger] else []) := by
  unfold WriteLevel
  by_cases h : level = zerolog.FatalLevel
  · simp only [h, if_true, World.call]
    cases B.Flush lw.logger _ <;> simp
  · simp [h, World.call]

/-- The method `WriteLevel` does not assign `clients`. -/
theorem WriteLevel_clients (B : Backend) (lw : loggingWriter) (level : Level)
    (p : Bytes) (w : World) :
    (WriteLevel B lw level p w).2.clients = w.clients := by
  unfold WriteLevel
  by_cases h : level = zerolog.FatalLevel
  · simp only [h, if_true, World.call]
    cases B.Flush lw.logger _ <;> simp
  · simp [h, World.call]

/-- The result of `WriteLevel` below or above the fatal level. -/
theorem WriteLevel_result_nonfatal (B : Backend) (lw : loggingWriter) (level : Level)
    (p : Bytes) (w : World) (h : level ≠ zerolog.FatalLevel) :
    (WriteLevel B lw level p w).1 = ((p.length : Int), none) := by
  unfold WriteLevel
  simp [h]

/-- The result of `WriteLevel` at the fatal level follows the result of the flush. -/
theorem WriteLevel_result_fatal (B : Backend) (lw : loggingWriter)
    (p : Bytes) (w : World) :
    (WriteLevel B lw zerolog.FatalLevel p w).1 =
      match B.Flush lw.logger
          (w.calls ++ [Call.Log lw.logger
            { Severity := mapIndex lw.levelMapping zerolog.FatalLevel, Payload := p }]) with
      | some e => (0, some e)
      | none => ((p.length : Int), none) := by
  unfold WriteLevel
  simp only [if_true, World.call]
  cases B.Flush lw.logger _ <;> simp

/-! ## Lemmas on `Close` -/

/-- The calls the loop of `Close` adds over the slots `cs`. -/
theorem closeLoop_calls (B : Backend) (cs : List ClientPtr) (w : World) :
    (closeLoop B cs w).calls =
      w.calls ++ (cs.filter (fun c => decide (c ≠ none))).map Call.Close := by
  induction cs generalizing w with
  | nil => simp [closeLoop]
  | cons c cs ih =>
    by_cases hc : c = none
    · simp [closeLoop, hc, ih]
    · simp [closeLoop, hc, ih, World.call]

/-- The loop of `Close` does not assign `clients`. -/
theorem closeLoop_clients (B : Backend) (cs : List ClientPtr) (w : World) :
    (closeLoop B cs w).clients = w.clients := by
  induction cs generalizing w with
  | nil => simp [closeLoop]
  | cons c cs ih =>
    by_cases hc : c = none
    · simp [closeLoop, hc, ih]
    · simp [closeLoop, hc, ih, World.call]

/-- The calls `Close` adds. -/
theorem Close_calls (B : Backend) (w : World) :
    (Close B w).calls =
      w.calls ++ (w.clients.filter (fun c => decide (c ≠ none))).map Call.Close :=
  closeLoop_calls B w.clients w

/-- The function `Close` does not assign `clients`. -/
theorem Close_clients (B : Backend) (w : World) :
    (Close B w).clients = w.clients :=
  closeLoop_clients B w.clients w

/-! ## Writing -/

/-- C1: a writer that carries `DefaultLevelMapping` answers `WriteLevel` at each
of the eight keys of that mapping with exactly one `Log` call on its logger,
whose entry has the severity the mapping stores under the level (debug to
Debug, info to Info, warn to Warning, error to Error, panic to Critical, fatal
to Alert, none and trace to Default) and the payload as given; the only other
call is the flush of the fatal level. -/
theorem WriteLevel_default_mapping (B : Backend) (lw : loggingWriter) (p : Bytes)
    (w : World) (h : lw.levelMapping = DefaultLevelMapping) :
    (WriteLevel B lw zerolog.DebugLevel p w).2.calls =
        w.calls ++ [Call.Log lw.logger { Severity := logging.Debug, Payload := p }] ∧
    (WriteLevel B lw zerolog.InfoLevel p w).2.calls =
        w.calls ++ [Call.Log lw.logger { Severity := logging.Info, Payload := p }] ∧
    (WriteLevel B lw zerolog.WarnLevel p w).2.calls =
        w.calls ++ [Call.Log lw.logger { Severity := logging.Warning, Payload := p }] ∧
    (WriteLevel B lw zerolog.ErrorLevel p w).2.calls =
        w.calls ++ [Call.Log lw.logger { Severity := logging.Error, Payload := p }] ∧
    (WriteLevel B lw zerolog.PanicLevel p w).2.calls =
        w.calls ++ [Call.Log lw.logger { Severity := logging.Critical, Payload := p }] ∧
    (WriteLevel B lw zerolog.FatalLevel p w).2.calls =
        w.calls ++ [Call.Log lw.logger { Severity := logging.Alert, Payload := p },
          Call.Flush lw.logger] ∧
    (WriteLevel B lw zerolog.NoLevel p w).2.calls =
        w.calls ++ [Call.Log lw.logger { Severity := logging.Default, Payload := p }] ∧
    (WriteLevel B lw zerolog.TraceLevel p w).2.calls =
        w.calls ++ [Call.Log lw.logger { Severity := logging.Default, Payload := p }] ∧
    (∀ level sev, (level, sev) ∈ DefaultLevelMapping →
      mapIndex DefaultLevelMapping level = sev ∧
      (WriteLevel B lw level p w).2.calls =
        w.calls ++ Call.Log lw.logger { Severity := sev, Payload := p } ::
          (if level = zerolog.FatalLevel then [Call.Flush lw.logger] else [])) := by
  refine ⟨?_, ?_, ?_, ?_, ?_, ?_, ?_, ?_, ?_⟩
  · rw [WriteLevel_calls, h]; rfl
  · rw [WriteLevel_calls, h]; rfl
  · rw [WriteLevel_calls, h]; rfl
  · rw [WriteLevel_calls, h]; rfl
  · rw [WriteLevel_calls, h]; rfl
  · rw [WriteLevel_calls, h]; rfl
  · rw [WriteLevel_calls, h]; rfl
  · rw [WriteLevel_calls, h]; rfl
  · intro level sev hm
    have hidx : mapIndex DefaultLevelMapping level = sev := by
      simp only [DefaultLevelMapping, List.mem_cons, Prod.mk.injEq, List.mem_singleton,
        List.not_mem_nil, or_false] at hm
      rcases hm with ⟨rfl, rfl⟩ | ⟨rfl, rfl⟩ | ⟨rfl, rfl⟩ | ⟨rfl, rfl⟩ | ⟨rfl, rfl⟩ |
        ⟨rfl, rfl⟩ | ⟨rfl, rfl⟩ | ⟨rfl, rfl⟩ <;> rfl
    refine ⟨hidx, ?_⟩
    rw [WriteLevel_calls, h, hidx]

/-- Witness of C1 on a concrete writer, payload and library. -/
theorem WriteLevel_default_mapping_witness :
    sampleWriter.levelMapping = DefaultLevelMapping ∧
    (WriteLevel okBackend sampleWriter zerolog.WarnLevel msgX initWorld).2.calls =
      [Call.Log (some 7) { Severity := 400, Payload := msgX }] ∧
    (WriteLevel okBackend sampleWriter zerolog.FatalLevel msgX initWorld).2.calls =
      [Call.Log (some 7) { Severity := 700, Payload := msgX }, Call.Flush (some 7)] :=
  ⟨rfl,
   (WriteLevel_default_mapping okBackend sampleWriter msgX initWorld rfl).2.2.1,
   (WriteLevel_default_mapping okBackend sampleWriter msgX initWorld rfl).2.2.2.2.2.1⟩

/-- C2: `WriteLevel` returns the length of the payload and a nil error whenever
the level is not fatal, or it is fatal and the flush reports no error, whatever
the mapping of the writer holds. -/
theorem WriteLevel_returns_length (B : Backend) (lw : loggingWriter) (level : Level)
    (p : Bytes) (w : World)
    (h : level ≠ zerolog.FatalLevel ∨
      (level = zerolog.FatalLevel ∧
        B.Flush lw.logger
          (w.calls ++ [Call.Log lw.logger
            { Severity := mapIndex lw.levelMapping level, Payload := p }]) = none)) :
    (WriteLevel B lw level p w).1 = ((p.length : Int), none) := by
  rcases h with h | ⟨rfl, hf⟩
  · exact WriteLevel_result_nonfatal B lw level p w h
  · rw [WriteLevel_result_fatal, hf]

/-- Witness of C2: with the mapping of the single key error and the eleven
byte payload, the write at error level returns 11 and no error; a fatal write
whose flush succeeds returns 11 as well. -/
theorem WriteLevel_returns_length_witness :
    (WriteLevel okBackend errorOnlyWriter zerolog.ErrorLevel msgX initWorld).1 = (11, none) ∧
    (WriteLevel okBackend errorOnlyWriter zerolog.FatalLevel msgX initWorld).1 = (11, none) :=
  ⟨WriteLevel_returns_length okBackend errorOnlyWriter zerolog.ErrorLevel msgX initWorld
      (Or.inl (by decide)),
   WriteLevel_returns_length okBackend errorOnlyWriter zerolog.FatalLevel msgX initWorld
      (Or.inr ⟨rfl, rfl⟩)⟩

/-- C3: at the fatal level the calls `WriteLevel` makes are the `Log` of the
entry followed by one `Flush` of the same logger, both made before it returns;
at every other level the only call is the `Log`, with no `Flush`. -/
theorem WriteLevel_flush_iff_fatal (B : Backend) (lw : loggingWriter) (p : Bytes)
    (w : World) :
    (WriteLevel B lw zerolog.FatalLevel p w).2.calls =
        w.calls ++
          [Call.Log lw.logger
            { Severity := mapIndex lw.levelMapping zerolog.FatalLevel, Payload := p },
           Call.Flush lw.logger] ∧
    (∀ level, level ≠ zerolog.FatalLevel →
      (WriteLevel B lw level p w).2.calls =
        w.calls ++
          [Call.Log lw.logger
            { Severity := mapIndex lw.levelMapping level, Payload := p }]) := by
  refine ⟨?_, ?_⟩
  · rw [WriteLevel_calls]; simp
  · intro level hne
    rw [WriteLevel_calls]; simp [hne]

/-- Witness of C3 at the info level and at the fatal level, the latter with a
flush that fails. -/
theorem WriteLevel_flush_iff_fatal_witness :
    (WriteLevel flushFailBackend sampleWriter zerolog.FatalLevel msgX initWorld).2.calls =
      [Call.Log (some 7) { Severity := 700, Payload := msgX }, Call.Flush (some 7)] ∧
    (WriteLevel flushFailBackend sampleWriter zerolog.InfoLevel msgX initWorld).2.calls =
      [Call.Log (some 7) { Severity := 200, Payload := msgX }] :=
  ⟨(WriteLevel_flush_iff_fatal flushFailBackend sampleWriter msgX initWorld).1,
   (WriteLevel_flush_iff_fatal flushFailBackend sampleWriter msgX initWorld).2
      zerolog.InfoLevel (by decide)⟩

/-- C4: when the flush of a fatal write reports the error `e`, `WriteLevel`
returns `0` and that same error, and the entry has been handed to `Log` before
the flush all the same. -/
theorem WriteLevel_flush_error (B : Backend) (lw : loggingWriter) (p : Bytes)
    (w : World) (e : Err)
    (h : B.Flush lw.logger
          (w.calls ++ [Call.Log lw.logger
            { Severity := mapIndex lw.levelMapping zerolog.FatalLevel, Payload := p }])
          = some e) :
    (WriteLevel B lw zerolog.FatalLevel p w).1 = (0, some e) ∧
    (WriteLevel B lw zerolog.FatalLevel p w).2.calls =
      w.calls ++
        [Call.Log lw.logger
          { Severity := mapIndex lw.levelMapping zerolog.FatalLevel, Payload := p },
         Call.Flush lw.logger] := by
  refine ⟨?_, ?_⟩
  · rw [WriteLevel_result_fatal, h]
  · rw [WriteLevel_calls]; simp

/-- Witness of C4 with a library whose flush fails. -/
theorem WriteLevel_flush_error_witness :
    (WriteLevel flushFailBackend sampleWriter zerolog.FatalLevel msgX initWorld).1 =
      (0, some "flush: deadline exceeded") ∧
    (WriteLevel flushFailBackend sampleWriter zerolog.FatalLevel msgX initWorld).2.calls =
      [Call.Log (some 7) { Severity := 700, Payload := msgX }, Call.Flush (some 7)] :=
  WriteLevel_flush_error flushFailBackend sampleWriter msgX initWorld
    "flush: deadline exceeded" rfl

/-- C5: `SetLevelMapping` replaces the mapping of the writer and merges
nothing: whatever mapping the writer had, the next `WriteLevel` at a level
logs the severity the new mapping stores under that level when it is a key,
and `logging.Default` when it is not; on such a miss the write still returns
the length of the payload and a nil error, unless a fatal flush fails. -/
theorem SetLevelMapping_replaces (B : Backend) (lw : loggingWriter) (m : LevelMapping)
    (l : Level) (p : Bytes) (w : World) :
    (SetLevelMapping lw m w).1 =
        { client := lw.client, logger := lw.logger, levelMapping := m } ∧
    (SetLevelMapping lw m w).2 = w ∧
    (∀ sev, m.lookup l = some sev →
      (WriteLevel B (SetLevelMapping lw m w).1 l p (SetLevelMapping lw m w).2).2.calls =
        w.calls ++ Call.Log lw.logger { Severity := sev, Payload := p } ::
          (if l = zerolog.FatalLevel then [Call.Flush lw.logger] else [])) ∧
    (m.lookup l = none →
      (WriteLevel B (SetLevelMapping lw m w).1 l p (SetLevelMapping lw m w).2).2.calls =
        w.calls ++ Call.Log lw.logger { Severity := logging.Default, Payload := p } ::
          (if l = zerolog.FatalLevel then [Call.Flush lw.logger] else []) ∧
      ((l ≠ zerolog.FatalLevel ∨
          B.Flush lw.logger
            (w.calls ++ [Call.Log lw.logger
              { Severity := logging.Default, Payload := p }]) = none) →
        (WriteLevel B (SetLevelMapping lw m w).1 l p (SetLevelMapping lw m w).2).1 =
          ((p.length : Int), none))) := by
  refine ⟨rfl, rfl, ?_, ?_⟩
  · intro sev hs
    rw [WriteLevel_calls]
    simp [SetLevelMapping, mapIndex, hs]
  · intro hn
    have hidx : mapIndex (SetLevelMapping lw m w).1.levelMapping l = logging.Default := by
      simp [SetLevelMapping, mapIndex, hn]
    refine ⟨?_, ?_⟩
    · rw [WriteLevel_calls, hidx]
      rfl
    · rintro (hne | hf)
      · exact WriteLevel_result_nonfatal B _ l p _ hne
      · by_cases hl : l = zerolog.FatalLevel
        · subst hl
          rw [WriteLevel_result_fatal, hidx]
          show (match B.Flush lw.logger
              (w.calls ++ [Call.Log lw.logger
                { Severity := logging.Default, Payload := p }]) with
            | some e => ((0 : Int), some e)
            | none => ((p.length : Int), none)) = _
          rw [hf]
        · exact WriteLevel_result_nonfatal B _ l p _ hl

/-- Witness of C5: a writer with the default mapping is given the mapping of
the single key error; the warn level, mapped to Warning before, is now logged
with the default severity and the write succeeds, and the error level is
logged with Error. -/
theorem SetLevelMapping_replaces_witness :
    (WriteLevel okBackend
        (SetLevelMapping sampleWriter [(zerolog.ErrorLevel, logging.Error)] initWorld).1
        zerolog.WarnLevel msgX initWorld).2.calls =
      [Call.Log (some 7) { Severity := 0, Payload := msgX }] ∧
    (WriteLevel okBackend
        (SetLevelMapping sampleWriter [(zerolog.ErrorLevel, logging.Error)] initWorld).1
        zerolog.WarnLevel msgX initWorld).1 = (11, none) ∧
    (WriteLevel okBackend
        (SetLevelMapping sampleWriter [(zerolog.ErrorLevel, logging.Error)] initWorld).1
        zerolog.ErrorLevel msgX initWorld).2.calls =
      [Call.Log (some 7) { Severity := 500, Payload := msgX }] :=
  ⟨((SetLevelMapping_replaces okBackend sampleWriter [(zerolog.ErrorLevel, logging.Error)]
      zerolog.WarnLevel msgX initWorld).2.2.2 rfl).1,
   ((SetLevelMapping_replaces okBackend sampleWriter [(zerolog.ErrorLevel, logging.Error)]
      zerolog.WarnLevel msgX initWorld).2.2.2 rfl).2 (Or.inl (by decide)),
   (SetLevelMapping_replaces okBackend sampleWriter [(zerolog.ErrorLevel, logging.Error)]
      zerolog.ErrorLevel msgX initWorld).2.2.1 logging.Error rfl⟩

/-- C6: `Write` behaves as `WriteLevel` at `zerolog.NoLevel`: the same result
and the same state after it, which is one `Log` of the entry with the severity
the mapping gives for the no level and the payload, no `Flush`, and the length
of the payload with a nil error. -/
theorem Write_eq_WriteLevel_NoLevel (B : Backend) (lw : loggingWriter) (p : Bytes)
    (w : World) :
    Write B lw p w = WriteLevel B lw zerolog.NoLevel p w ∧
    (Write B lw p w).1 = ((p.length : Int), none) ∧
    (Write B lw p w).2.calls =
      w.calls ++
        [Call.Log lw.logger
          { Severity := mapIndex lw.levelMapping zerolog.NoLevel, Payload := p }] ∧
    (∀ lg, Call.Flush lg ∉ (Write B lw p w).2.calls.drop w.calls.length) := by
  have hc : (Write B lw p w).2.calls =
      w.calls ++
        [Call.Log lw.logger
          { Severity := mapIndex lw.levelMapping zerolog.NoLevel, Payload := p }] := by
    show (WriteLevel B lw zerolog.NoLevel p w).2.calls = _
    rw [WriteLevel_calls]; simp
  refine ⟨rfl, ?_, hc, ?_⟩
  · exact WriteLevel_result_nonfatal B lw zerolog.NoLevel p w (by decide)
  · intro lg
    rw [hc, List.drop_left]
    simp

/-- Witness of C6 on a writer whose mapping lacks the no level. -/
theorem Write_eq_WriteLevel_NoLevel_witness :
    Write okBackend errorOnlyWriter msgX initWorld =
      WriteLevel okBackend errorOnlyWriter zerolog.NoLevel msgX initWorld ∧
    (Write okBackend errorOnlyWriter msgX initWorld).1 = (11, none) ∧
    (Write okBackend errorOnlyWriter msgX initWorld).2.calls =
      [Call.Log (some 7) { Severity := 0, Payload := msgX }] :=
  ⟨(Write_eq_WriteLevel_NoLevel okBackend errorOnlyWriter msgX initWorld).1,
   (Write_eq_WriteLevel_NoLevel okBackend errorOnlyWriter msgX initWorld).2.1,
   (Write_eq_WriteLevel_NoLevel okBackend errorOnlyWriter msgX initWorld).2.2.1⟩

/-! ## Construction and shutdown -/

/-- C7: for every registry and whatever the individual closes return, the
calls `Close` makes are one close for each registry slot that is not nil, in
registry order, and nothing else; the nil slots are skipped and no result of a
close stops or changes the rest. -/
theorem Close_closes_registry (B : Backend) (w : World) :
    (Close B w).calls =
        w.calls ++ (w.clients.filter (fun c => decide (c ≠ none))).map Call.Close ∧
    (∀ B2 : Backend, (Close B2 w).calls = (Close B w).calls) := by
  refine ⟨Close_calls B w, ?_⟩
  intro B2
  rw [Close_calls, Close_calls]

/-- Witness of C7: with a nil slot in the middle and a library whose every
close reports an error, both clients are closed, in order. -/
theorem Close_closes_registry_witness :
    (Close closeFailBackend sampleWorld).calls =
      [Call.Close (some 1), Call.Close (some 2)] :=
  (Close_closes_registry closeFailBackend sampleWorld).1

/-- C8: `NewWriter` registers all or nothing.  When creating the client
reports an error, or the client is created and the ping reports an error, the
call returns a nil writer with that error and `clients` is as before.  When
both succeed, `clients` is the previous sequence with the new client appended
at the end, and the call returns a writer holding that client, the logger
obtained from it and `DefaultLevelMapping`, with a nil error. -/
theorem NewWriter_registers_atomically (B : Backend) (ctx : Context)
    (parent logID : String) (opts : List LoggerOption) (w : World) :
    (∀ e, B.NewClient ctx parent w.calls = Except.error e →
      NewWriter B ctx parent logID opts w =
        Outcome.returns
          ((none, some e),
           { clients := w.clients
             calls := w.calls ++ [Call.NewClient ctx parent] })) ∧
    (∀ a e, B.NewClient ctx parent w.calls = Except.ok a →
      B.Ping (some a) ctx (w.calls ++ [Call.NewClient ctx parent]) = some e →
      NewWriter B ctx parent logID opts w =
        Outcome.returns
          ((none, some e),
           { clients := w.clients
             calls := w.calls ++ [Call.NewClient ctx parent, Call.Ping (some a) ctx] })) ∧
    (∀ a, B.NewClient ctx parent w.calls = Except.ok a →
      B.Ping (some a) ctx (w.calls ++ [Call.NewClient ctx parent]) = none →
      NewWriter B ctx parent logID opts w =
        Outcome.returns
          ((some
              { client := some a
                logger := B.Logger (some a) logID opts
                  (w.calls ++ [Call.NewClient ctx parent, Call.Ping (some a) ctx])
                levelMapping := DefaultLevelMapping }, none),
           { clients := w.clients ++ [some a]
             calls := w.calls ++
               [Call.NewClient ctx parent, Call.Ping (some a) ctx,
                Call.Logger (some a) logID opts] })) := by
  refine ⟨?_, ?_, ?_⟩
  · intro e h
    simp [NewWriter, h, World.call]
  · intro a e h hp
    simp [NewWriter, h, hp, World.call]
  · intro a h hp
    simp [NewWriter, NewWriterWithClient, h, hp, World.call]

/-- Witness of C8: a failing client creation and a failing ping leave the
empty registry empty and return no writer; a library that succeeds registers
the new client and returns the writer. -/
theorem NewWriter_registers_atomically_witness :
    NewWriter newClientFailBackend 0 "projects/p" "syslog" [] initWorld =
      Outcome.returns
        ((none, some "no credentials"),
         { clients := [], calls := [Call.NewClient 0 "projects/p"] }) ∧
    NewWriter pingFailBackend 0 "projects/p" "syslog" [] initWorld =
      Outcome.returns
        ((none, some "unreachable"),
         { clients := [],
           calls := [Call.NewClient 0 "projects/p", Call.Ping (some 0) 0] }) ∧
    NewWriter okBackend 0 "projects/p" "syslog" [] initWorld =
      Outcome.returns
        ((some { client := some 0, logger := some 2, levelMapping := DefaultLevelMapping },
          none),
         { clients := [some 0],
           calls := [Call.NewClient 0 "projects/p", Call.Ping (some 0) 0,
             Call.Logger (some 0) "syslog" []] }) :=
  ⟨(NewWriter_registers_atomically newClientFailBackend 0 "projects/p" "syslog" []
      initWorld).1 "no credentials" rfl,
   (NewWriter_registers_atomically pingFailBackend 0 "projects/p" "syslog" []
      initWorld).2.1 0 "unreachable" rfl rfl,
   (NewWriter_registers_atomically okBackend 0 "projects/p" "syslog" []
      initWorld).2.2 0 rfl rfl⟩

/-- C9, as stated, fails on the nil client: `NewWriterWithClient` panics there
and so returns neither a writer nor anything else. -/
theorem NewWriterWithClient_nil_client_panics :
    NewWriterWithClient okBackend none "syslog" [] initWorld = Outcome.panics ∧
    ¬ ∃ r, NewWriterWithClient okBackend none "syslog" [] initWorld = Outcome.returns r := by
  refine ⟨rfl, ?_⟩
  rintro ⟨r, hr⟩
  exact Outcome.noConfusion hr

/-- C9, amended to clients that are not nil: for every such client and every
log identifier `NewWriterWithClient` returns a writer that is not nil, holding
that client, the logger the client gives for the identifier and
`DefaultLevelMapping`, with a nil error; its only call is the request for the
logger (no ping), and `clients` is unchanged, so that a `Close` after it closes
the registered clients only: a client that is not in the registry is not
closed. -/
theorem NewWriterWithClient_nonnil_no_registration (B : Backend) (client : ClientPtr)
    (logID : String) (opts : List LoggerOption) (w : World) (hc : client ≠ none) :
    NewWriterWithClient B client logID opts w =
      Outcome.returns
        ((some
            { client := client
              logger := B.Logger client logID opts w.calls
              levelMapping := DefaultLevelMapping }, none),
         { clients := w.clients
           calls := w.calls ++ [Call.Logger client logID opts] }) ∧
    (client ∉ w.clients →
      Call.Close client ∉
        (Close B
            { clients := w.clients
              calls := w.calls ++ [Call.Logger client logID opts] }).calls.drop
          (w.calls ++ [Call.Logger client logID opts]).length) := by
  refine ⟨?_, ?_⟩
  · cases client with
    | none => exact absurd rfl hc
    | some a => rfl
  · intro hm
    rw [Close_calls, List.drop_left]
    simp only [List.mem_map, List.mem_filter, not_exists, not_and]
    rintro x ⟨hx, -⟩ hxe
    injection hxe with hxe
    subst hxe
    exact hm hx

/-- Witness of the amended C9: a writer built on client 9, which `NewWriter`
never registered, next to a registry of two clients and a nil slot; the call
returns the writer, leaves the three slots in place, and the shutdown after it
does not close client 9. -/
theorem NewWriterWithClient_nonnil_no_registration_witness :
    NewWriterWithClient okBackend (some 9) "syslog" [] sampleWorld =
      Outcome.returns
        ((some { client := some 9, logger := some 0, levelMapping := DefaultLevelMapping },
          none),
         { clients := [some 1, none, some 2],
           calls := [Call.Logger (some 9) "syslog" []] }) ∧
    Call.Close (some 9) ∉
      (Close okBackend
          { clients := [some 1, none, some 2],
            calls := [Call.Logger (some 9) "syslog" []] }).calls.drop 1 :=
  ⟨(NewWriterWithClient_nonnil_no_registration okBackend (some 9) "syslog" [] sampleWorld
      (by decide)).1,
   (NewWriterWithClient_nonnil_no_registration okBackend (some 9) "syslog" [] sampleWorld
      (by decide)).2 (by decide)⟩

/-- C10: `Close` leaves `clients` as it was, so a second `Close` right after
the first issues the same closes once more; `WriteLevel`, `Write` and
`SetLevelMapping` leave `clients` unchanged as well. -/
theorem registry_unchanged_by_Close_and_writes (B : Backend) (lw : loggingWriter)
    (level : Level) (p : Bytes) (lm : LevelMapping) (w : World) :
    (Close B w).clients = w.clients ∧
    (Close B (Close B w)).calls =
      w.calls ++ (w.clients.filter (fun c => decide (c ≠ none))).map Call.Close ++
        (w.clients.filter (fun c => decide (c ≠ none))).map Call.Close ∧
    (WriteLevel B lw level p w).2.clients = w.clients ∧
    (Write B lw p w).2.clients = w.clients ∧
    (SetLevelMapping lw lm w).2.clients = w.clients := by
  refine ⟨Close_clients B w, ?_, WriteLevel_clients B lw level p w,
    WriteLevel_clients B lw zerolog.NoLevel p w, rfl⟩
  rw [Close_calls, Close_clients, Close_calls]

/-- Witness of C10: two shutdowns in a row close both clients twice and leave
the three registry slots in place. -/
theorem registry_unchanged_by_Close_and_writes_witness :
    (Close okBackend sampleWorld).clients = [some 1, none, some 2] ∧
    (Close okBackend (Close okBackend sampleWorld)).calls =
      [Call.Close (some 1), Call.Close (some 2), Call.Close (some 1), Call.Close (some 2)] :=
  ⟨(registry_unchanged_by_Close_and_writes okBackend sampleWriter zerolog.InfoLevel msgX []
      sampleWorld).1,
   (registry_unchanged_by_Close_and_writes okBackend sampleWriter zerolog.InfoLevel msgX []
      sampleWorld).2.1⟩

end Zlg
